import Mathlib

/-!
Verification of the SIOP verifiable-credentials verifier core.

The development shallowly embeds the TypeScript sources:
  - `ClaimToken` (token classification and child-token extraction),
  - `SiopTokenValidator` (replay protection and SIOP fan-out),
  - `Validator` (the orchestrating loop, result assembly, status check).

JavaScript dynamic values are modelled by the `Json` inductive; property
access on arbitrary values returns `Option Json` (with `none` standing for
`undefined`).  The external `base64url` decoder composed with `JSON.parse`
is modelled as an explicit parameter `dec : String → Option Json` mapping a
base64url segment to its parsed JSON payload (`none` when decoding or
parsing throws).  Operations that can throw are modelled with
`Except String`, carrying the thrown error message.
-/

set_option autoImplicit false

namespace VcSdk

/-- JSON / JavaScript dynamic values. Numbers are modelled as integers
(no claim in this development depends on float behaviour). -/
inductive Json where
  | null
  | bool (b : Bool)
  | num (n : Int)
  | str (s : String)
  | arr (elems : List Json)
  | obj (fields : List (String × Json))

/-- First-match lookup of a key in a JS object's field list. -/
def lookupKV : List (String × Json) → String → Option Json
  | [], _ => none
  | (k, v) :: rest, key => if k = key then some v else lookupKV rest key

/-- JS property access `j[key]`: a value on objects, `undefined` (`none`)
on every non-object. -/
def Json.get? : Json → String → Option Json
  | .obj fields, key => lookupKV fields key
  | _, _ => none

/-- JS property access on a possibly-`undefined` receiver.  When the
receiver is `none` JavaScript would throw a `TypeError`; the sources only
perform such accesses on values known to be present, and every theorem
below carries that presence as a hypothesis. -/
def jsGet (o : Option Json) (key : String) : Option Json :=
  o.bind (fun j => j.get? key)

/-- JS truthiness of the result of a property access. -/
def jsTruthy : Option Json → Bool
  | none => false
  | some .null => false
  | some (.bool b) => b
  | some (.num n) => n != 0
  | some (.str s) => s != ""
  | some (.arr _) => true
  | some (.obj _) => true

mutual

/-- JS string coercion of one value, as used by template-literal
interpolation (`String(value)`). -/
def Json.display : Json → String
  | .null => "null"
  | .bool b => cond b "true" "false"
  | .num n => toString n
  | .str s => s
  | .arr elems => String.intercalate "," (jsDisplayList elems)
  | .obj _ => "[object Object]"
termination_by structural j => j

/-- Display of each array element, as in JS `Array.prototype.toString`. -/
def jsDisplayList : List Json → List String
  | [] => []
  | e :: rest => Json.display e :: jsDisplayList rest
termination_by structural l => l

end

/-- JS string coercion of a property-access result (`undefined` included). -/
def jsDisplay : Option Json → String
  | none => "undefined"
  | some j => j.display

/-- JS `String.prototype.split` with a single-character separator. -/
def jsSplitAux (sep : Char) : List Char → List Char → List String
  | [], acc => [String.mk acc.reverse]
  | c :: cs, acc =>
    if c = sep then String.mk acc.reverse :: jsSplitAux sep cs []
    else jsSplitAux sep cs (c :: acc)

/-- `s.split(sep)` for a one-character separator (`''.split` gives `[""]`,
as in JS). -/
def jsSplit (sep : Char) (s : String) : List String :=
  jsSplitAux sep s.toList []

/-- Whitespace recognised by the model of `String.prototype.trim`. -/
def jsIsWhitespace (c : Char) : Bool :=
  c = ' ' || c = '\t' || c = '\n' || c = '\r'

/-- Model of JS `String.prototype.trim`. -/
def jsTrim (s : String) : String :=
  String.mk (((s.toList.dropWhile jsIsWhitespace).reverse.dropWhile jsIsWhitespace).reverse)

/-- `TokenType` enum from `ClaimToken.ts`. -/
inductive TokenType where
  | selfIssued
  | idToken
  | siopIssuance
  | siopPresentationAttestation
  | siopPresentationExchange
  | verifiablePresentation
  | verifiableCredential
  | verifiablePresentationStatus
deriving DecidableEq, BEq, Repr

/-- Modelled from the spec: `VerifiableCredentialConstants.TOKEN_SI_ISS`,
the SIOP issuer sentinel `"https://self-issued.me"` (the constants file is
not part of the sources at hand; §4.1 of the spec gives the value). -/
def TOKEN_SI_ISS : String := "https://self-issued.me"

/-- Modelled from the spec: `VerifiableCredentialConstants.CLAIMS_SELFISSUED`,
the reserved attestation key, the literal `"selfIssued"` (§4.6). -/
def CLAIMS_SELFISSUED : String := "selfIssued"

/-- Modelled from the spec: `VerifiableCredentialConstants.ATTESTATIONS`,
the payload key `"attestations"` (§6 wire formats). -/
def ATTESTATIONS : String := "attestations"

/-- Modelled from the spec: `VerifiableCredentialConstants.PRESENTATION_SUBMISSION`,
the payload key `"presentation_submission"` (§6 wire formats). -/
def PRESENTATION_SUBMISSION : String := "presentation_submission"

/-- `ClaimToken`: token type, raw compact token, decoded header, decoded
payload and the optional configuration endpoint.  Mirrors the private
fields `_type`, `_rawToken`, `_tokenHeader`, `_decodedToken`,
`_configuration`; the public getters are the structure projections. -/
structure ClaimToken where
  type : TokenType
  rawToken : String
  tokenHeader : Json
  decodedToken : Json
  configuration : String

/-- The public setter `set rawToken(value)`: assigns `_rawToken` only and
does not re-decode the token. -/
def ClaimToken.setRawToken (ct : ClaimToken) (value : String) : ClaimToken :=
  { ct with rawToken := value }

/-- The constructor's `token` argument: the sources pass either a raw
compact string (which gets decoded) or an already-decoded payload object
(stored directly, leaving `_rawToken` empty). -/
inductive TokenArg where
  | ofString (raw : String)
  | ofObject (payload : Json)

/-- `ClaimToken.decode`: split the raw token on `.`, require at least two
segments, base64url-decode and JSON-parse header and payload.  A decode or
parse failure in JS throws; the thrown `JSON.parse` message is
environment-defined and modelled by a fixed string. -/
def ClaimToken.decodeParts (dec : String → Option Json) (raw : String) :
    Except String (Json × Json) :=
  let parts := jsSplit '.' raw
  if parts.length < 2 then .error "Cannot decode. Invalid input token"
  else
    match dec (parts.getD 0 ""), dec (parts.getD 1 "") with
    | some header, some payload => .ok (header, payload)
    | _, _ => .error "JSON.parse: unexpected token"

/-- The `ClaimToken` constructor.  The `typeName` enum-membership check
always succeeds here because every call site passes a `TokenType` value. -/
def ClaimToken.new (dec : String → Option Json) (typeName : TokenType)
    (token : TokenArg) (configuration : Option String := none) :
    Except String ClaimToken :=
  match token with
  | .ofString raw =>
    (ClaimToken.decodeParts dec raw).map (fun (hp : Json × Json) =>
      { type := typeName, rawToken := raw, tokenHeader := hp.1,
        decodedToken := hp.2, configuration := configuration.getD "" })
  | .ofObject payload =>
    .ok { type := typeName, rawToken := "", tokenHeader := .obj [],
          decodedToken := payload, configuration := configuration.getD "" }

/-- `ClaimToken.getTokenPayload`: `JSON.parse(base64url.decode(token.split('.')[1]))`.
`none` models the JS throw when the segment is missing or fails to
decode or parse. -/
def ClaimToken.getTokenPayload (dec : String → Option Json) (token : String) :
    Option Json :=
  ((jsSplit '.' token).get? 1).bind dec

/-- `ClaimToken.tokenSignature`: the third segment exists and is not blank. -/
def ClaimToken.tokenSignature (token : String) : Bool :=
  match (jsSplit '.' token).get? 2 with
  | none => false
  | some s => jsTrim s != ""

/-- `payload.iss === VerifiableCredentialConstants.TOKEN_SI_ISS` (strict
string equality against the SIOP issuer sentinel). -/
def Json.issIsSiopSentinel (payload : Json) : Bool :=
  match payload.get? "iss" with
  | some (.str s) => s = TOKEN_SI_ISS
  | _ => false

/-- `ClaimToken.create`: classify a raw compact token by payload shape and
construct the `ClaimToken` (lines 137-167 of `ClaimToken.ts`). -/
def ClaimToken.create (dec : String → Option Json) (token : String) :
    Except String ClaimToken :=
  match ClaimToken.getTokenPayload dec token with
  | none => .error "JSON.parse: unexpected token"
  | some payload =>
    if payload.issIsSiopSentinel then
      if jsTruthy (payload.get? "contract") then
        ClaimToken.new dec .siopIssuance (.ofString token)
      else if jsTruthy (payload.get? "presentation_submission") then
        ClaimToken.new dec .siopPresentationExchange (.ofString token)
      else if jsTruthy (payload.get? "attestations") then
        ClaimToken.new dec .siopPresentationAttestation (.ofString token)
      else
        .error "SIOP was not recognized."
    else if jsTruthy (payload.get? "vc") then
      ClaimToken.new dec .verifiableCredential (.ofString token)
    else if jsTruthy (payload.get? "vp") then
      ClaimToken.new dec .verifiablePresentation (.ofString token)
    else if ClaimToken.tokenSignature token then
      ClaimToken.new dec .idToken (.ofString token)
    else
      ClaimToken.new dec .selfIssued (.ofString token)

/-- JS object assignment `m[k] = v`: overwrite an existing key in place,
otherwise append. -/
def kvSet {α : Type} : List (String × α) → String → α → List (String × α)
  | [], k, v => [(k, v)]
  | (k', v') :: rest, k, v =>
    if k' = k then (k, v) :: rest else (k', v') :: kvSet rest k v

/-- `for (let key in x)` enumerates an object's own enumerable properties.
(Over a non-object JS would iterate string indices; no source call site and
no claim reaches that case.) -/
def jsOwnFields : Json → List (String × Json)
  | .obj fields => fields
  | _ => []

/-- The `token` value handed to the `ClaimToken` constructor by
`getClaimTokensFromAttestations`: a string decodes, anything else is
stored as the already-decoded payload. -/
def TokenArg.ofJson : Json → TokenArg
  | .str s => .ofString s
  | j => .ofObject j

/-- Inner loop of `getClaimTokensFromAttestations`: for every key of a
non-`selfIssued` attestation sub-object, classify `token[tokenKey]` with
`ClaimToken.create` (a non-string value makes JS throw on `.split`). -/
def attestationsInnerLoop (dec : String → Option Json) :
    List (String × Json) → List (String × ClaimToken) →
    Except String (List (String × ClaimToken))
  | [], acc => .ok acc
  | (tokenKey, v) :: rest, acc =>
    match v with
    | .str raw =>
      match ClaimToken.create dec raw with
      | .error e => .error e
      | .ok ct => attestationsInnerLoop dec rest (kvSet acc tokenKey ct)
    | _ => .error "TypeError: token.split is not a function"

/-- Outer loop of `getClaimTokensFromAttestations` over the attestation
object's keys. -/
def attestationsLoop (dec : String → Option Json) :
    List (String × Json) → List (String × ClaimToken) →
    Except String (List (String × ClaimToken))
  | [], acc => .ok acc
  | (key, tokenVal) :: rest, acc =>
    if key = CLAIMS_SELFISSUED then
      match ClaimToken.new dec .selfIssued (TokenArg.ofJson tokenVal) with
      | .error e => .error e
      | .ok ct => attestationsLoop dec rest (kvSet acc CLAIMS_SELFISSUED ct)
    else
      match attestationsInnerLoop dec (jsOwnFields tokenVal) acc with
      | .error e => .error e
      | .ok acc' => attestationsLoop dec rest acc'

/-- `ClaimToken.getClaimTokensFromAttestations` (lines 174-191 of
`ClaimToken.ts`). -/
def ClaimToken.getClaimTokensFromAttestations (dec : String → Option Json)
    (attestations : Json) : Except String (List (String × ClaimToken)) :=
  attestationsLoop dec (jsOwnFields attestations) []

/-- A JSON-path selector: `.name`, `.*` or `[n]`. -/
inductive JSel where
  | key (k : String)
  | wildcard
  | idx (n : Nat)

/-- Children of a JSON value selected by one selector, in document order. -/
def jpChildren : Json → JSel → List Json
  | j, .key k =>
    match j.get? k with
    | some v => [v]
    | none => []
  | .arr elems, .wildcard => elems
  | .obj fields, .wildcard => fields.map (fun f => f.2)
  | _, .wildcard => []
  | .arr elems, .idx n =>
    match elems.get? n with
    | some v => [v]
    | none => []
  | _, .idx _ => []

/-- Evaluate a selector list against a frontier of values, preserving
document order. -/
def jpQueryMany : List JSel → List Json → List Json
  | [], js => js
  | sel :: rest, js => jpQueryMany rest (js.flatMap (fun j => jpChildren j sel))

/-- Characters allowed in a dotted JSON-path name. -/
def jpNameChar (c : Char) : Bool :=
  c != '.' && c != '[' && c != ']' && c != '*' && c != '$'

/-- Digits-to-number for a `[n]` selector. -/
def jpDigitsToNat (digits : List Char) : Nat :=
  digits.foldl (fun n c => 10 * n + (c.toNat - '0'.toNat)) 0

/-- Parse the selectors after the leading `$` of a JSON-path string.  The
fuel argument (the remaining character count) only serves termination. -/
def jpParseAux : Nat → List Char → Option (List JSel)
  | 0, cs => if cs.isEmpty then some [] else none
  | _, [] => some []
  | fuel + 1, '.' :: '*' :: rest =>
    (jpParseAux fuel rest).map (fun sels => JSel.wildcard :: sels)
  | fuel + 1, '.' :: rest =>
    let name := rest.takeWhile jpNameChar
    if name.isEmpty then none
    else (jpParseAux fuel (rest.drop name.length)).map
      (fun sels => JSel.key (String.mk name) :: sels)
  | fuel + 1, '[' :: rest =>
    let digits := rest.takeWhile Char.isDigit
    if digits.isEmpty then none
    else
      match rest.drop digits.length with
      | ']' :: rest' =>
        (jpParseAux fuel rest').map (fun sels => JSel.idx (jpDigitsToNat digits) :: sels)
      | _ => none
  | _ + 1, _ => none

/-- Modelled from the spec: the external jsonpath library's path parser,
supporting the `$.a.b`, `$.a.b.*` and `$.a.b[n]` selector forms the spec
requires (§9).  `none` models the exception the library throws on an
expression it cannot parse. -/
def jpParsePath (s : String) : Option (List JSel) :=
  match s.toList with
  | '$' :: rest => jpParseAux (rest.length + 1) rest
  | _ => none

/-- Modelled from the spec: the external `jp.query(obj, pathExpression)`
(§9): all matches of the path in the object, in document order; `none`
models the throw on an invalid path expression. -/
def jpQueryStr (payload : Json) (path : String) : Option (List Json) :=
  (jpParsePath path).map (fun sels => jpQueryMany sels [payload])

/-- Error message for a descriptor-map entry without an `id` property. -/
def peNoIdMsg : String :=
  "The SIOP presentation exchange response has descriptor_map without id property"

/-- Error message when a descriptor's path matched no token. -/
def peZeroMsg (id path : Option Json) : String :=
  "The SIOP presentation exchange response has descriptor_map with id \x27" ++
    jsDisplay id ++ "\x27. This path \x27" ++ jsDisplay path ++
    "\x27 did not return a token."

/-- Error message when a descriptor's path matched several tokens (the
spelling `credentails` is the source's). -/
def peMultiMsg (id path : Option Json) : String :=
  "The SIOP presentation exchange response has descriptor_map with id \x27" ++
    jsDisplay id ++ "\x27. This path \x27" ++ jsDisplay path ++
    "\x27 points to multiple credentails and should only point to one credential."

/-- Error message for a descriptor-map entry without a `path` property. -/
def peNoPathMsg (id : Option Json) : String :=
  "The SIOP presentation exchange response has descriptor_map with id \x27" ++
    jsDisplay id ++ "\x27. No path property found."

/-- Loop body of `getClaimTokensFromPresentationExchange` over the
descriptor-map entries (lines 203-224 of `ClaimToken.ts`): a falsy entry
is skipped; a falsy `id` throws; with a truthy `path` the path is queried
against the full payload and exactly one match is allowed — a single
string match is classified and recorded under the entry's `id`, a single
non-string match is silently skipped. -/
def peLoop (dec : String → Option Json) (payload : Json) :
    List Json → List (String × ClaimToken) →
    Except String (List (String × ClaimToken))
  | [], acc => .ok acc
  | item :: rest, acc =>
    if jsTruthy (some item) then
      if !jsTruthy (item.get? "id") then .error peNoIdMsg
      else if jsTruthy (item.get? "path") then
        match item.get? "path" with
        | some (.str pathStr) =>
          match jpQueryStr payload pathStr with
          | none => .error "jsonpath: invalid path expression"
          | some tokenFinder =>
            if tokenFinder.length = 0 then
              .error (peZeroMsg (item.get? "id") (item.get? "path"))
            else if tokenFinder.length > 1 then
              .error (peMultiMsg (item.get? "id") (item.get? "path"))
            else
              match tokenFinder with
              | [.str foundToken] =>
                match ClaimToken.create dec foundToken with
                | .error e => .error e
                | .ok ct =>
                  peLoop dec payload rest
                    (kvSet acc (jsDisplay (item.get? "id")) ct)
              | _ => peLoop dec payload rest acc
        | _ =>
          -- a truthy non-string `path` makes `jp.query` throw
          .error "jsonpath: invalid path expression"
      else .error (peNoPathMsg (item.get? "id"))
    else peLoop dec payload rest acc

/-- `ClaimToken.getClaimTokensFromPresentationExchange` (lines 198-226 of
`ClaimToken.ts`): the descriptor map is
`jp.query(payload, "$.presentation_submission.descriptor_map.*")`. -/
def ClaimToken.getClaimTokensFromPresentationExchange
    (dec : String → Option Json) (payload : Json) :
    Except String (List (String × ClaimToken)) :=
  let descriptorMap :=
    jpQueryMany [.key "presentation_submission", .key "descriptor_map", .wildcard]
      [payload]
  peLoop dec payload descriptorMap []

/-- `IValidationResult` (§3 of the spec; the interface file is not among
the sources, its fields are read off `setValidationResult` and
`checkVcsStatus`).  `none` stands for an absent (`undefined`) field. -/
structure IValidationResult where
  did : Option Json := none
  contract : Option Json := none
  siopJti : Option Json := none
  idTokens : Option (List ClaimToken) := none
  verifiableCredentials : Option (List (String × ClaimToken)) := none
  verifiablePresentations : Option (List (String × ClaimToken)) := none
  selfIssued : Option ClaimToken := none
  siop : Option ClaimToken := none
  verifiablePresentationStatus : Option (List (String × Json)) := none

/-- `IValidationResponse`: result flag, HTTP-like status, and the
optional error, payload, DID, child-token map and final result fields. -/
structure IValidationResponse where
  result : Bool
  status : Nat
  detailedError : Option String := none
  payloadObject : Option Json := none
  did : Option String := none
  tokensToValidate : Option (List (String × ClaimToken)) := none
  validationResult : Option IValidationResult := none

/-- Modelled from the spec: `IExpectedSiop` (§3 Expected — the interface
file is not among the sources): the common `type`/`audience` fields plus
the SIOP `nonce`/`state`. -/
structure IExpectedSiop where
  type : TokenType
  audience : Option String := none
  nonce : Option String := none
  state : Option String := none

/-- What a queue item carries: the raw string handed to `enqueueToken`,
or the `ClaimToken` handed to `enqueueItem` (which skips re-parsing). -/
inductive QueueInput where
  | raw (token : String)
  | claimToken (ct : ClaimToken)

/-- Modelled from the spec: `ValidationQueueItem` (§3 — the class file is
not among the sources): id, token under validation, and the result slots
filled in by `setResult`. -/
structure ValidationQueueItem where
  id : String
  input : QueueInput
  validationResponse : Option IValidationResponse := none
  validatedToken : Option ClaimToken := none
  isValidated : Bool := false

/-- JS truthiness of an optional string (set and non-empty). -/
def optTruthy : Option String → Bool
  | some s => s != ""
  | none => false

/-- JS strict equality `value === str` between a property-access result
and a string. -/
def jsonEqStr : Option Json → String → Bool
  | some (.str s), t => s = t
  | _, _ => false

/-- State half of `SiopTokenValidator.validateReplayProtection`
(lines 59-67). -/
def replayStateCheck (expected : IExpectedSiop) (vr : IValidationResponse) :
    IValidationResponse :=
  if optTruthy expected.state then
    let s := expected.state.getD ""
    if !jsonEqStr (jsGet vr.payloadObject "state") s then
      { result := false, status := 403,
        detailedError := some ("Expect state \x27" ++ s ++
          "\x27 does not match \x27" ++
          jsDisplay (jsGet vr.payloadObject "state") ++ "\x27.") }
    else vr
  else vr

/-- `SiopTokenValidator.validateReplayProtection` (lines 49-70): when the
expected nonce is set (truthy) and strictly differs from the payload's
`nonce`, fail with 403 naming both values; then the same for `state`. -/
def SiopTokenValidator.validateReplayProtection (expected : IExpectedSiop)
    (vr : IValidationResponse) : IValidationResponse :=
  if optTruthy expected.nonce then
    let n := expected.nonce.getD ""
    if !jsonEqStr (jsGet vr.payloadObject "nonce") n then
      { result := false, status := 403,
        detailedError := some ("Expect nonce \x27" ++ n ++
          "\x27 does not match \x27" ++
          jsDisplay (jsGet vr.payloadObject "nonce") ++ "\x27.") }
    else replayStateCheck expected vr
  else replayStateCheck expected vr

/-- The tail of `getTokens` (lines 122-126): when `tokensToValidate` is
set (a JS object is truthy even when empty), append one queue item per
entry, in iteration order. -/
def enqueueTokensToValidate (vr : IValidationResponse)
    (queue : List ValidationQueueItem) : List ValidationQueueItem :=
  match vr.tokensToValidate with
  | some toks =>
    queue ++ toks.map (fun kv => { id := kv.1, input := QueueInput.claimToken kv.2 })
  | none => queue

/-- `SiopTokenValidator.getTokens` (lines 77-128): classify the SIOP by
payload shape (`attestations` / `presentation_submission` / other — the
source's `TokenType.siop` fallthrough), extract the child tokens, and on
success append them to the queue.  Extraction errors return 403 with the
underlying message and leave the queue untouched. -/
def SiopTokenValidator.getTokens (dec : String → Option Json)
    (vr : IValidationResponse) (queue : List ValidationQueueItem) :
    IValidationResponse × List ValidationQueueItem :=
  let att := jsGet vr.payloadObject ATTESTATIONS
  if jsTruthy att then
    match ClaimToken.getClaimTokensFromAttestations dec (att.getD .null) with
    | .error e =>
      ({ result := false, status := 403, detailedError := some e }, queue)
    | .ok toks =>
      let vr' := { vr with tokensToValidate := some toks }
      (vr', enqueueTokensToValidate vr' queue)
  else if jsTruthy (jsGet vr.payloadObject PRESENTATION_SUBMISSION) then
    match ClaimToken.getClaimTokensFromPresentationExchange dec
        (vr.payloadObject.getD .null) with
    | .error e =>
      ({ result := false, status := 403, detailedError := some e }, queue)
    | .ok toks =>
      let vr' := { vr with tokensToValidate := some toks }
      (vr', enqueueTokensToValidate vr' queue)
  else
    (vr, enqueueTokensToValidate vr queue)

/-- `SiopTokenValidator.validate` (lines 33-43).  The inner
`SiopValidation.validate` call lives in a source file outside the ones at
hand and is abstracted by its result `innerResult`.  Note the source's
order: child extraction (`getTokens`) runs when the inner validation
succeeded, and the replay check runs only afterwards. -/
def SiopTokenValidator.validate (dec : String → Option Json)
    (expected : IExpectedSiop) (innerResult : IValidationResponse)
    (queue : List ValidationQueueItem) :
    IValidationResponse × List ValidationQueueItem :=
  let step :=
    if innerResult.result then SiopTokenValidator.getTokens dec innerResult queue
    else (innerResult, queue)
  (SiopTokenValidator.validateReplayProtection expected step.1, step.2)

/-- `Validator.isSiop` (lines 428-430): only `siopIssuance` and
`siopPresentationAttestation` count (the source does not include
`siopPresentationExchange` here). -/
def Validator.isSiop : Option TokenType → Bool
  | some .siopIssuance => true
  | some .siopPresentationAttestation => true
  | _ => false

/-- The type of a queue item's validated token, if any. -/
def itemType (item : ValidationQueueItem) : Option TokenType :=
  item.validatedToken.map (fun ct => ct.type)

/-- `item.validationResponse.did` (the response slot is always filled on a
validated item; `none` smooths the JS `TypeError` otherwise). -/
def respDid (item : ValidationQueueItem) : Option String :=
  item.validationResponse.bind (fun r => r.did)

/-- `item.validationResponse.payloadObject[key]`. -/
def respPayloadGet (item : ValidationQueueItem) (key : String) : Option Json :=
  jsGet (item.validationResponse.bind (fun r => r.payloadObject)) key

/-- Build the credential/presentation maps of `setValidationResult`:
`map[item.id] = item.validatedToken` over the filtered items (the filter
guarantees `validatedToken` is present). -/
def itemsToMap (items : List ValidationQueueItem) : List (String × ClaimToken) :=
  items.foldl
    (fun acc item =>
      match item.validatedToken with
      | some ct => kvSet acc item.id ct
      | none => acc) []

/-- `Validator.setValidationResult` (lines 432-495): assemble the final
`IValidationResult` from the drained queue.  `did` is the first
`isSiop` item's response DID, falling back to the first verifiable
credential's `aud` when that is falsy; `contract`/`siopJti` come from the
first `isSiop` item's payload; the per-type collections group the
remaining items. -/
def Validator.setValidationResult (queue : List ValidationQueueItem) :
    IValidationResult :=
  let siopItems := queue.filter (fun i => Validator.isSiop (itemType i))
  let vcItems := queue.filter (fun i => itemType i = some TokenType.verifiableCredential)
  -- get user DID from SIOP or VC
  let didSiop : Option String := ((siopItems.map respDid).get? 0).bind id
  let didVal : Option Json :=
    if optTruthy didSiop then didSiop.map Json.str
    else
      ((vcItems.map (fun vc =>
        jsGet (vc.validatedToken.map (fun ct => ct.decodedToken)) "aud")).get? 0).bind id
  -- Set the contract
  let contractVal : Option Json :=
    ((siopItems.map (fun s => respPayloadGet s "contract")).get? 0).bind id
  -- Set the jti
  let jtiVal : Option Json :=
    ((siopItems.map (fun s => respPayloadGet s "jti")).get? 0).bind id
  let idTokenItems := queue.filter (fun i => itemType i = some TokenType.idToken)
  let vpItems := queue.filter (fun i => itemType i = some TokenType.verifiablePresentation)
  let siItems := queue.filter (fun i => itemType i = some TokenType.selfIssued)
  { did := some (if jsTruthy didVal then didVal.getD (.str "") else .str "")
    contract := some (if jsTruthy contractVal then contractVal.getD (.str "") else .str "")
    -- `jti ?? ''`: nullish coalescing, so `null` and `undefined` become ''
    siopJti := some (match jtiVal with
      | none => .str ""
      | some .null => .str ""
      | some v => v)
    idTokens :=
      if idTokenItems.length > 0 then
        some (idTokenItems.filterMap (fun t => t.validatedToken))
      else none
    verifiableCredentials :=
      if vcItems.length > 0 then some (itemsToMap vcItems) else none
    verifiablePresentations :=
      if vpItems.length > 0 then some (itemsToMap vpItems) else none
    selfIssued := (siItems.get? 0).bind (fun t => t.validatedToken)
    siop := (siopItems.get? 0).bind (fun t => t.validatedToken) }

/-- Scan to the character data following the `://` scheme separator. -/
def urlAfterScheme : List Char → Option (List Char)
  | [] => none
  | ':' :: '/' :: '/' :: rest => some rest
  | _ :: cs => urlAfterScheme cs

/-- Modelled from the spec: the WHATWG `new URL(u).pathname` used by
`readContractId`, restricted to absolute `scheme://authority/path`
URLs — the pathname runs from the first slash after the authority up to
`?` or `#` and defaults to `/`; `none` models the TypeError thrown on a
string without a scheme separator. -/
def urlPathname (u : String) : Option String :=
  match urlAfterScheme u.toList with
  | none => none
  | some rest =>
    let afterAuth := rest.dropWhile (fun c => c != '/' && c != '?' && c != '#')
    let path := afterAuth.takeWhile (fun c => c != '?' && c != '#')
    if path.isEmpty then some "/" else some (String.mk path)

/-- Value of one hexadecimal digit. -/
def hexVal (c : Char) : Option Nat :=
  if c.isDigit then some (c.toNat - '0'.toNat)
  else if 'a' ≤ c ∧ c ≤ 'f' then some (c.toNat - 'a'.toNat + 10)
  else if 'A' ≤ c ∧ c ≤ 'F' then some (c.toNat - 'A'.toNat + 10)
  else none

/-- Modelled from the spec: JS `decodeURIComponent` restricted to
single-byte percent escapes; `none` models the `URIError` thrown on a
malformed escape. -/
def decodeURIComponentAux : List Char → Option (List Char)
  | [] => some []
  | '%' :: a :: b :: rest =>
    match hexVal a, hexVal b with
    | some ha, some hb =>
      (decodeURIComponentAux rest).map (fun cs => Char.ofNat (16 * ha + hb) :: cs)
    | _, _ => none
  | '%' :: _ => none
  | c :: rest => (decodeURIComponentAux rest).map (fun cs => c :: cs)

/-- Model of JS `decodeURIComponent`. -/
def decodeURIComponent (s : String) : Option String :=
  (decodeURIComponentAux s.toList).map String.mk

/-- `Validator.readContractId` (lines 501-508): URL-parse the contract
URL, split its pathname on `/`, take `pathParts[pathParts.length - 1]`
(the last segment, even when it is empty), and URL-decode it.  `none`
models a JS throw (invalid URL or malformed percent escape). -/
def Validator.readContractId (contractUrl : String) : Option String :=
  (urlPathname contractUrl).bind (fun path =>
    let pathParts := jsSplit '/' path
    decodeURIComponent (pathParts.getLastD ""))

/-- The per-presentation loop of `checkVcsStatus` (lines 326-339): run
the status sub-protocol on each presentation, stop at the first failure,
merge the per-`jti` receipt entries otherwise.  The second result
component records the presentations on which `checkVpStatus` was invoked
(each such invocation performs network traffic). -/
def checkVcsLoop (checkVpStatus : ClaimToken → IValidationResponse) :
    List (String × ClaimToken) → List (String × Json) → List ClaimToken →
    IValidationResponse × List ClaimToken
  | [], receipts, trace =>
    ({ result := true, status := 200,
       validationResult := some { verifiablePresentationStatus := some receipts } },
     trace)
  | (_, vp) :: rest, receipts, trace =>
    let response := checkVpStatus vp
    if !response.result then (response, trace ++ [vp])
    else
      let receipts' :=
        match response.validationResult.bind
            (fun r => r.verifiablePresentationStatus) with
        | some entries =>
          entries.foldl (fun acc kv => kvSet acc kv.1 kv.2) receipts
        | none => receipts
      checkVcsLoop checkVpStatus rest receipts' (trace ++ [vp])

/-- `Validator.checkVcsStatus` (lines 292-346).  `featureEnabled` is the
builder's `verifiedCredentialsStatusCheckEnabled` flag; the per-VP
network sub-protocol `checkVpStatus` (which signs, POSTs and validates
receipts) is abstracted as a function argument.  The source also builds a
`vcsToValidate` array from the credentials' `credentialStatus.id` URLs,
which no later statement reads; it is omitted here.  The second result
component lists the presentations for which `checkVpStatus` ran. -/
def Validator.checkVcsStatus (featureEnabled : Bool)
    (checkVpStatus : ClaimToken → IValidationResponse)
    (validationResult : IValidationResult) :
    IValidationResponse × List ClaimToken :=
  if !featureEnabled then
    ({ result := true, status := 200 }, [])
  else if validationResult.verifiablePresentations.isNone then
    ({ result := false, status := 403,
       detailedError := some "No presentations to tests" }, [])
  else if validationResult.verifiableCredentials.isNone then
    ({ result := false, status := 403,
       detailedError := some "No verifiable credentials to tests" }, [])
  else
    checkVcsLoop checkVpStatus (validationResult.verifiablePresentations.getD [])
      [] []

/-- The string value of a `TokenType` enum member (used by the template
literals of `Validator.validate`). -/
def TokenType.name : TokenType → String
  | .selfIssued => "selfIssued"
  | .idToken => "idToken"
  | .siopIssuance => "siopIssuance"
  | .siopPresentationAttestation => "siopPresentationAttestation"
  | .siopPresentationExchange => "siopPresentationExchange"
  | .verifiablePresentation => "verifiablePresentation"
  | .verifiableCredential => "verifiableCredential"
  | .verifiablePresentationStatus => "verifiablePresentationStatus"

/-- A registered token validator, abstracted by its `validate` method:
from the queue, the item under validation and the optional DID / contract
arguments it produces a response and the updated queue (validators append
child items). -/
def TokenValidatorFn : Type :=
  List ValidationQueueItem → ValidationQueueItem → Option String → Option String →
    IValidationResponse × List ValidationQueueItem

/-- `Validator.getClaimToken` (lines 516-519):
`queueItem.claimToken ?? ClaimToken.create(queueItem.tokenToValidate)`. -/
def Validator.getClaimToken (dec : String → Option Json)
    (item : ValidationQueueItem) : Except String ClaimToken :=
  match item.input with
  | .claimToken ct => .ok ct
  | .raw raw => ClaimToken.create dec raw

/-- `queue.getNextToken()`: index of the first unvalidated item. -/
def findNextIdx (q : List ValidationQueueItem) : Option Nat :=
  q.findIdx? (fun i => !i.isValidated)

/-- `queueItem.setResult(response, claimToken)` on the item at `idx`. -/
def setResultAt : List ValidationQueueItem → Nat → IValidationResponse →
    ClaimToken → List ValidationQueueItem
  | [], _, _, _ => []
  | item :: rest, 0, resp, ct =>
    { item with validationResponse := some resp
                validatedToken := some ct
                isValidated := true } :: rest
  | item :: rest, n + 1, resp, ct => item :: setResultAt rest n resp ct

/-- Modelled from the spec: `ValidationQueue.getResult` (§4.2 aggregate —
the class file is not among the sources): success iff every item's
response succeeded, else the first failing item's response verbatim. -/
def queueGetResult (q : List ValidationQueueItem) : IValidationResponse :=
  match q.find? (fun i =>
      !((i.validationResponse.map (fun r => r.result)).getD false)) with
  | some item => (item.validationResponse).getD { result := false, status := 500 }
  | none => { result := true, status := 200 }

/-- Outcome of a JS async function: a returned value or a thrown error. -/
inductive JsOutcome where
  | ret (r : IValidationResponse)
  | thrown (msg : String)

/-- The mutable state of the `Validator.validate` loop: the queue, the
SIOP context (`siopDid`, `siopContractId`) and the `this.tokens` trace of
classified tokens. -/
structure LoopState where
  queue : List ValidationQueueItem
  siopDid : Option String := none
  siopContractId : Option String := none
  tokens : List ClaimToken := []

/-- The `do ... while (queueItem)` loop of `Validator.validate`
(lines 199-264).  `Sum.inl` is an early `return` (or a JS throw),
`Sum.inr` the drained state.  The fuel argument only serves termination
of the model; every theorem below supplies enough of it. -/
def validateLoop (dec : String → Option Json)
    (registry : List (TokenType × TokenValidatorFn)) :
    Nat → LoopState → JsOutcome ⊕ LoopState
  | 0, _ => .inl (.thrown "model: fuel exhausted")
  | fuel + 1, st =>
    match findNextIdx st.queue with
    | none => .inr st
    | some idx =>
      match st.queue.get? idx with
      | none => .inr st
      | some item =>
        match Validator.getClaimToken dec item with
        | .error msg =>
          .inl (.ret { result := false, status := 400, detailedError := some msg })
        | .ok claimToken =>
          -- keep track of the validated tokens
          let st := { st with tokens := st.tokens ++ [claimToken] }
          match registry.find? (fun kv => kv.1 == claimToken.type) with
          | none =>
            .inl (.ret { result := false, status := 500
                         detailedError := some (claimToken.type.name ++
                           " does not has a TokenValidator") })
          | some kv =>
            let validatorFn := kv.2
            match claimToken.type with
            | .idToken =>
              let r := validatorFn st.queue item (some "") st.siopContractId
              validateLoop dec registry fuel
                { st with queue := setResultAt r.2 idx r.1 claimToken }
            | .verifiableCredential =>
              let r := validatorFn st.queue item st.siopDid none
              validateLoop dec registry fuel
                { st with queue := setResultAt r.2 idx r.1 claimToken }
            | .verifiablePresentation =>
              let r := validatorFn st.queue item st.siopDid none
              validateLoop dec registry fuel
                { st with queue := setResultAt r.2 idx r.1 claimToken }
            | .siopIssuance =>
              let r := validatorFn st.queue item none none
              let st := { st with siopDid := r.1.did }
              if r.1.result then
                match Validator.readContractId
                    (jsDisplay (jsGet r.1.payloadObject "contract")) with
                | none => .inl (.thrown "TypeError: Invalid URL")
                | some cid =>
                  validateLoop dec registry fuel
                    { st with
                        queue := setResultAt r.2 idx r.1 claimToken
                        siopContractId := some cid }
              else
                validateLoop dec registry fuel
                  { st with queue := setResultAt r.2 idx r.1 claimToken }
            | .siopPresentationAttestation =>
              let r := validatorFn st.queue item none none
              validateLoop dec registry fuel
                { st with
                    queue := setResultAt r.2 idx r.1 claimToken
                    siopDid := r.1.did }
            | .siopPresentationExchange =>
              let r := validatorFn st.queue item none none
              validateLoop dec registry fuel
                { st with
                    queue := setResultAt r.2 idx r.1 claimToken
                    siopDid := r.1.did }
            | .selfIssued =>
              let r := validatorFn st.queue item none none
              validateLoop dec registry fuel
                { st with queue := setResultAt r.2 idx r.1 claimToken }
            | .verifiablePresentationStatus =>
              .inl (.ret { result := false, status := 400
                           detailedError := some (claimToken.type.name ++
                             " is not supported") })

/-- `Validator.validate` (lines 188-287): seed the queue with the raw
SIOP under the id `"siop"`, drive the loop, then aggregate the queue,
assemble the `IValidationResult` and run the status check. -/
def Validator.validate (dec : String → Option Json)
    (registry : List (TokenType × TokenValidatorFn)) (featureEnabled : Bool)
    (checkVpStatus : ClaimToken → IValidationResponse) (fuel : Nat)
    (token : String) : JsOutcome :=
  let queue : List ValidationQueueItem := [{ id := "siop", input := .raw token }]
  match validateLoop dec registry fuel { queue := queue } with
  | .inl out => out
  | .inr st =>
    let response := queueGetResult st.queue
    if response.result then
      let validationResult := Validator.setValidationResult st.queue
      let statusStep := Validator.checkVcsStatus featureEnabled checkVpStatus validationResult
      let statusResponse := statusStep.1
      let validationResult := { validationResult with
        verifiablePresentationStatus :=
          statusResponse.validationResult.bind
            (fun r => r.verifiablePresentationStatus) }
      if statusResponse.result then
        .ret { result := true, status := 200,
               validationResult := some validationResult }
      else .ret statusResponse
    else .ret response

/-! ## Claims -/

/-- A decode-table decoder used by the closed example theorems: a finite
map from base64url segment text to its parsed JSON value. -/
def tableDec (tbl : List (String × Json)) : String → Option Json :=
  fun s => lookupKV tbl s

/-- A decoder on which every segment fails to decode (never consulted by
the example theorems that use it). -/
def decNone : String → Option Json := fun _ => none

/-- C8 counterexample token: a `ClaimToken` as produced by the
constructor from the raw token `"h8.p8"`. -/
def ctC8 : ClaimToken :=
  { type := .selfIssued, rawToken := "h8.p8", tokenHeader := .obj []
    decodedToken := .obj [("name", .str "jules")], configuration := "" }

/-- C8 counterexample decoder. -/
def decC8 : String → Option Json :=
  tableDec [("h8", .obj []), ("p8", .obj [("name", .str "jules")])]

/-- C10 witness data: a result with one presentation and no credentials. -/
def vrC10 : IValidationResult :=
  { verifiablePresentations := some [("vp", ctC8)] }

/-- C2 example: an attestation-flavour SIOP payload carrying the nonce
`b` and one `selfIssued` attestation. -/
def pC2 : Json :=
  .obj [("nonce", .str "b"),
        ("attestations", .obj [("selfIssued", .obj [("name", .str "jules")])])]

/-- C2 example: the (successful) result of the inner `SiopValidation`. -/
def innerC2 : IValidationResponse :=
  { result := true, status := 200, did := some "did:test:user"
    payloadObject := some pC2 }

/-- C2 example: the caller expects the nonce `a`. -/
def expectedC2 : IExpectedSiop :=
  { type := .siopPresentationAttestation, nonce := some "a" }

/-- C3 witness payload: nonce `b`, state `y`. -/
def pC3 : Json := .obj [("nonce", .str "b"), ("state", .str "y")]

/-- C1 witness payload: a SIOP-issuance payload (sentinel issuer plus a
truthy `contract`). -/
def pW1 : Json := .obj [("iss", .str TOKEN_SI_ISS), ("contract", .str "IdentityCard")]

/-- C1 witness decoder. -/
def decW1 : String → Option Json := tableDec [("hW1", .obj []), ("pW1", pW1)]

/-- C4 witness payload: one descriptor-map entry with an `id` but no
`path`. -/
def pC4 : Json :=
  .obj [("presentation_submission",
         .obj [("descriptor_map",
                .arr [.obj [("id", .str "IdentityCard")]])])]

/-- C5 counterexample token: a validated `siopPresentationExchange` SIOP. -/
def ctC5 : ClaimToken :=
  { type := .siopPresentationExchange, rawToken := "r", tokenHeader := .obj []
    decodedToken := .obj [], configuration := "" }

/-- C5 counterexample response: the PE SIOP's validation response, with a
DID and a payload carrying `contract` and `jti`. -/
def respC5 : IValidationResponse :=
  { result := true, status := 200, did := some "did:pe:user"
    payloadObject := some (.obj [("contract", .str "ContractC5"),
                                 ("jti", .str "JtiC5")]) }

/-- C5 counterexample queue item. -/
def itemC5 : ValidationQueueItem :=
  { id := "siop", input := .claimToken ctC5, validationResponse := some respC5
    validatedToken := some ctC5, isValidated := true }

/-- C5 witness token: a validated attestation-flavour SIOP. -/
def ctW5 : ClaimToken :=
  { type := .siopPresentationAttestation, rawToken := "r", tokenHeader := .obj []
    decodedToken := .obj [], configuration := "" }

/-- C5 witness response. -/
def respW5 : IValidationResponse :=
  { result := true, status := 200, did := some "did:att:user"
    payloadObject := some (.obj [("contract", .str "CW5"),
                                 ("jti", .str "JW5")]) }

/-- C5 witness queue item. -/
def itemW5 : ValidationQueueItem :=
  { id := "siop", input := .claimToken ctW5, validationResponse := some respW5
    validatedToken := some ctW5, isValidated := true }

/-- C7 witness payload: a verifiable-credential payload. -/
def pC7 : Json := .obj [("vc", .obj [("credentialSubject", .obj [])])]

/-- C7 witness decoder. -/
def decC7 : String → Option Json := tableDec [("h7", .obj []), ("p7", pC7)]

/-- C7 witness token as classified by `ClaimToken.create`. -/
def ctC7 : ClaimToken :=
  { type := .verifiableCredential, rawToken := "h7.p7", tokenHeader := .obj []
    decodedToken := pC7, configuration := "" }

/-- Helper for the classification theorem: when both the header and the
payload segment decode, the string-token constructor succeeds and stores
them. -/
theorem claimToken_new_ofString_ok (dec : String → Option Json)
    (tname : TokenType) (token : String) (header payload : Json)
    (hh : ((jsSplit '.' token).get? 0).bind dec = some header)
    (hp : ClaimToken.getTokenPayload dec token = some payload) :
    ClaimToken.new dec tname (.ofString token) =
      .ok { type := tname, rawToken := token, tokenHeader := header
            decodedToken := payload, configuration := "" } := by
  rw [ClaimToken.getTokenPayload] at hp
  obtain ⟨s1, h1, hd1⟩ := Option.bind_eq_some.mp hp
  obtain ⟨s0, h0, hd0⟩ := Option.bind_eq_some.mp hh
  rw [List.get?_eq_getElem?] at h0 h1
  have hlen : 1 < (jsSplit '.' token).length :=
    (List.getElem?_eq_some_iff.mp h1).1
  have hnl : ¬ ((jsSplit '.' token).length < 2) := by omega
  simp [ClaimToken.new, ClaimToken.decodeParts, hnl,
    List.getD_eq_getElem?_getD, h0, h1, hd0, hd1, Except.map]

/-- C8: the claim states that no public operation on a constructed
`ClaimToken` changes its `rawToken`; the public `rawToken` setter does
exactly that (without re-decoding), on a token built by the constructor. -/
theorem claimtoken_rawtoken_setter_cex :
    ClaimToken.new decC8 .selfIssued (.ofString "h8.p8") = .ok ctC8 ∧
    (ctC8.setRawToken "tampered").rawToken = "tampered" ∧
    ctC8.rawToken = "h8.p8" ∧
    (ctC8.setRawToken "tampered").rawToken ≠ ctC8.rawToken := by
  refine ⟨rfl, rfl, rfl, ?_⟩
  decide

/-- C8 (amended): after construction, `type`, `tokenHeader`,
`decodedToken` and `configuration` are unchanged by every public
operation; `rawToken` alone is mutable, through its public setter, which
assigns the new raw string and leaves the decoded payload untouched. -/
theorem claimtoken_setter_only_rawtoken (ct : ClaimToken) (v : String) :
    (ct.setRawToken v).type = ct.type ∧
    (ct.setRawToken v).tokenHeader = ct.tokenHeader ∧
    (ct.setRawToken v).decodedToken = ct.decodedToken ∧
    (ct.setRawToken v).configuration = ct.configuration ∧
    (ct.setRawToken v).rawToken = v :=
  ⟨rfl, rfl, rfl, rfl, rfl⟩

/-- C9: with the `verifiedCredentialsStatusCheckEnabled` flag disabled,
`checkVcsStatus` immediately returns success (`result=true`, `status=200`)
on every validation result, and the list of presentations on which the
network sub-protocol ran is empty (no network traffic). -/
theorem checkVcsStatus_flag_disabled
    (checkVpStatus : ClaimToken → IValidationResponse)
    (validationResult : IValidationResult) :
    Validator.checkVcsStatus false checkVpStatus validationResult =
      ({ result := true, status := 200 }, []) :=
  rfl

/-- C10: with the flag enabled, a validation result without
`verifiablePresentations` fails the status check with 403 and
`"No presentations to tests"`, and one with presentations but without
`verifiableCredentials` fails with 403 and
`"No verifiable credentials to tests"`; in neither case does the network
sub-protocol run. -/
theorem checkVcsStatus_empty_result_errors
    (checkVpStatus : ClaimToken → IValidationResponse)
    (validationResult : IValidationResult) :
    (validationResult.verifiablePresentations = none →
      Validator.checkVcsStatus true checkVpStatus validationResult =
        ({ result := false, status := 403
           detailedError := some "No presentations to tests" }, [])) ∧
    (∀ vps, validationResult.verifiablePresentations = some vps →
      validationResult.verifiableCredentials = none →
      Validator.checkVcsStatus true checkVpStatus validationResult =
        ({ result := false, status := 403
           detailedError := some "No verifiable credentials to tests" }, [])) := by
  constructor
  · intro hvp
    simp [Validator.checkVcsStatus, hvp]
  · intro vps hvp hvc
    simp [Validator.checkVcsStatus, hvp, hvc]

/-- C10 witness: both error branches evaluated at concrete inputs. -/
theorem checkVcsStatus_empty_result_errors_witness :
    Validator.checkVcsStatus true (fun _ => { result := true, status := 200 })
      ({} : IValidationResult) =
      ({ result := false, status := 403
         detailedError := some "No presentations to tests" }, []) ∧
    Validator.checkVcsStatus true (fun _ => { result := true, status := 200 })
      vrC10 =
      ({ result := false, status := 403
         detailedError := some "No verifiable credentials to tests" }, []) :=
  ⟨(checkVcsStatus_empty_result_errors _ _).1 rfl,
   (checkVcsStatus_empty_result_errors _ _).2 [("vp", ctC8)] rfl rfl⟩

/-- C3: when the expected nonce (respectively state, once the nonce check
passed) is set and the payload's value is not strictly equal to it,
`validateReplayProtection` returns `result=false`, `status=403` and a
`detailedError` that interpolates — hence contains — both the expected
value and the actual payload value. -/
theorem siop_replay_mismatch_403 (expected : IExpectedSiop)
    (vr : IValidationResponse) (p : Json) (hp : vr.payloadObject = some p) :
    (∀ n, expected.nonce = some n → n ≠ "" →
      jsonEqStr (p.get? "nonce") n = false →
      SiopTokenValidator.validateReplayProtection expected vr =
        { result := false, status := 403
          detailedError := some ("Expect nonce \x27" ++ n ++
            "\x27 does not match \x27" ++ jsDisplay (p.get? "nonce") ++ "\x27.") } ∧
      ∃ pre mid post,
        (SiopTokenValidator.validateReplayProtection expected vr).detailedError =
          some (pre ++ n ++ mid ++ jsDisplay (p.get? "nonce") ++ post)) ∧
    ((optTruthy expected.nonce = false ∨
        jsonEqStr (p.get? "nonce") (expected.nonce.getD "") = true) →
      ∀ s, expected.state = some s → s ≠ "" →
      jsonEqStr (p.get? "state") s = false →
      SiopTokenValidator.validateReplayProtection expected vr =
        { result := false, status := 403
          detailedError := some ("Expect state \x27" ++ s ++
            "\x27 does not match \x27" ++ jsDisplay (p.get? "state") ++ "\x27.") } ∧
      ∃ pre mid post,
        (SiopTokenValidator.validateReplayProtection expected vr).detailedError =
          some (pre ++ s ++ mid ++ jsDisplay (p.get? "state") ++ post)) := by
  constructor
  · intro n hn hne hmm
    have ht : optTruthy (some n) = true := by
      simp [optTruthy, bne_iff_ne, hne]
    have he : SiopTokenValidator.validateReplayProtection expected vr =
        { result := false, status := 403
          detailedError := some ("Expect nonce \x27" ++ n ++
            "\x27 does not match \x27" ++ jsDisplay (p.get? "nonce") ++ "\x27.") } := by
      simp [SiopTokenValidator.validateReplayProtection, ht, hp, jsGet, hn, hmm]
    exact ⟨he, "Expect nonce \x27", "\x27 does not match \x27", "\x27.", by rw [he]⟩
  · intro hnonce s hs hse hmm
    have hstate : optTruthy (some s) = true := by
      simp [optTruthy, bne_iff_ne, hse]
    have hb : SiopTokenValidator.validateReplayProtection expected vr =
        replayStateCheck expected vr := by
      rcases hnonce with h | h
      · simp [SiopTokenValidator.validateReplayProtection, h]
      · by_cases ho : optTruthy expected.nonce
        · simp [SiopTokenValidator.validateReplayProtection, ho, hp, jsGet, h]
        · simp [SiopTokenValidator.validateReplayProtection, ho]
    have he : replayStateCheck expected vr =
        { result := false, status := 403
          detailedError := some ("Expect state \x27" ++ s ++
            "\x27 does not match \x27" ++ jsDisplay (p.get? "state") ++ "\x27.") } := by
      simp [replayStateCheck, hstate, hp, jsGet, hs, hmm]
    rw [hb]
    exact ⟨he, "Expect state \x27", "\x27 does not match \x27", "\x27.", by rw [he]⟩

/-- C2 counterexample: the inner validation succeeded but the expected
nonce mismatches, so the replay state fails — yet the SIOP validator has
already extracted the attestation child and appended it to the queue
(its length grew from 0 to 1) before returning the 403. -/
theorem siop_fanout_before_replay_cex :
    (SiopTokenValidator.validate decNone expectedC2 innerC2 []).1.result = false ∧
    (SiopTokenValidator.validate decNone expectedC2 innerC2 []).1.status = 403 ∧
    (SiopTokenValidator.validate decNone expectedC2 innerC2 []).1.detailedError =
      some "Expect nonce \x27a\x27 does not match \x27b\x27." ∧
    (SiopTokenValidator.validate decNone expectedC2 innerC2 []).2.length = 1 :=
  ⟨rfl, rfl, rfl, rfl⟩

/-- C2 (amended): a failure of the inner `SiopValidation` terminates the
SIOP validator with no children extracted or enqueued; the replay
(nonce/state) check, however, runs after child extraction, so when the
extraction result still carries the payload and its nonce mismatches the
expected value, the validator returns 403 naming both values while the
queue already holds whatever children `getTokens` appended.  (As in the
C3 theorem, the payload's presence on the response being checked is a
hypothesis: on a response without `payloadObject` — the `getTokens`
failure response — the source throws a TypeError instead.) -/
theorem siop_fanout_before_replay_amended (dec : String → Option Json)
    (expected : IExpectedSiop) (innerResult : IValidationResponse)
    (queue : List ValidationQueueItem) :
    (innerResult.result = false →
      (SiopTokenValidator.validate dec expected innerResult queue).2 = queue) ∧
    (∀ p, innerResult.result = true →
      (SiopTokenValidator.getTokens dec innerResult queue).1.payloadObject = some p →
      ∀ n, expected.nonce = some n → n ≠ "" →
      jsonEqStr (p.get? "nonce") n = false →
      SiopTokenValidator.validate dec expected innerResult queue =
        ({ result := false, status := 403
           detailedError := some ("Expect nonce \x27" ++ n ++
             "\x27 does not match \x27" ++
             jsDisplay (p.get? "nonce") ++ "\x27.") },
         (SiopTokenValidator.getTokens dec innerResult queue).2)) := by
  constructor
  · intro h
    simp [SiopTokenValidator.validate, h]
  · intro p h hpo n hn hne hmm
    have ht : optTruthy (some n) = true := by
      simp [optTruthy, bne_iff_ne, hne]
    simp [SiopTokenValidator.validate, h,
      SiopTokenValidator.validateReplayProtection, hpo, jsGet, hn, ht, hmm]

/-- C2 witness for the amended theorem: the concrete run of the
counterexample (where `getTokens` succeeds and keeps the payload), with
the 403 replay error and the fan-out queue. -/
theorem siop_fanout_before_replay_amended_witness :
    SiopTokenValidator.validate decNone expectedC2 innerC2 [] =
      ({ result := false, status := 403
         detailedError := some "Expect nonce \x27a\x27 does not match \x27b\x27." },
       (SiopTokenValidator.getTokens decNone innerC2 []).2) :=
  (((siop_fanout_before_replay_amended decNone expectedC2 innerC2 []).2
    pC2 rfl rfl "a" rfl (by decide) rfl)).trans rfl

/-- C3 witness: a nonce mismatch and, with the nonce unset, a state
mismatch, both with the interpolated error texts. -/
theorem siop_replay_mismatch_403_witness :
    (SiopTokenValidator.validateReplayProtection
        { type := .siopIssuance, nonce := some "a" }
        { result := true, status := 200, payloadObject := some pC3 } =
      { result := false, status := 403
        detailedError := some "Expect nonce \x27a\x27 does not match \x27b\x27." }) ∧
    (SiopTokenValidator.validateReplayProtection
        { type := .siopIssuance, state := some "x" }
        { result := true, status := 200, payloadObject := some pC3 } =
      { result := false, status := 403
        detailedError := some "Expect state \x27x\x27 does not match \x27y\x27." }) := by
  constructor
  · exact (((siop_replay_mismatch_403
      { type := .siopIssuance, nonce := some "a" }
      { result := true, status := 200, payloadObject := some pC3 } pC3 rfl).1
      "a" rfl (by decide) rfl).1).trans rfl
  · exact (((siop_replay_mismatch_403
      { type := .siopIssuance, state := some "x" }
      { result := true, status := 200, payloadObject := some pC3 } pC3 rfl).2
      (Or.inl rfl) "x" rfl (by decide) rfl).1).trans rfl

/-- C1: for every compact JWS whose header and payload segments parse,
`ClaimToken.create` classifies in order: under the self-issued sentinel
`iss`, a (truthy) `contract` gives `siopIssuance`, else
`presentation_submission` gives `siopPresentationExchange`, else
`attestations` gives `siopPresentationAttestation`, else creation fails
with `SIOP was not recognized.`; otherwise `vc` gives
`verifiableCredential`, `vp` gives `verifiablePresentation`, a present
and non-blank third segment gives `idToken`, and otherwise `selfIssued`.
Presence of a payload property is the code's test: the property access is
truthy. -/
theorem claimtoken_create_classification (dec : String → Option Json)
    (token : String) (header payload : Json)
    (hh : ((jsSplit '.' token).get? 0).bind dec = some header)
    (hp : ClaimToken.getTokenPayload dec token = some payload) :
    (payload.issIsSiopSentinel = true →
      (jsTruthy (payload.get? "contract") = true →
        (ClaimToken.create dec token).map (fun ct => ct.type) =
          .ok .siopIssuance) ∧
      (jsTruthy (payload.get? "contract") = false →
        jsTruthy (payload.get? "presentation_submission") = true →
        (ClaimToken.create dec token).map (fun ct => ct.type) =
          .ok .siopPresentationExchange) ∧
      (jsTruthy (payload.get? "contract") = false →
        jsTruthy (payload.get? "presentation_submission") = false →
        jsTruthy (payload.get? "attestations") = true →
        (ClaimToken.create dec token).map (fun ct => ct.type) =
          .ok .siopPresentationAttestation) ∧
      (jsTruthy (payload.get? "contract") = false →
        jsTruthy (payload.get? "presentation_submission") = false →
        jsTruthy (payload.get? "attestations") = false →
        ClaimToken.create dec token = .error "SIOP was not recognized.")) ∧
    (payload.issIsSiopSentinel = false →
      (jsTruthy (payload.get? "vc") = true →
        (ClaimToken.create dec token).map (fun ct => ct.type) =
          .ok .verifiableCredential) ∧
      (jsTruthy (payload.get? "vc") = false →
        jsTruthy (payload.get? "vp") = true →
        (ClaimToken.create dec token).map (fun ct => ct.type) =
          .ok .verifiablePresentation) ∧
      (jsTruthy (payload.get? "vc") = false →
        jsTruthy (payload.get? "vp") = false →
        ClaimToken.tokenSignature token = true →
        (ClaimToken.create dec token).map (fun ct => ct.type) =
          .ok .idToken) ∧
      (jsTruthy (payload.get? "vc") = false →
        jsTruthy (payload.get? "vp") = false →
        ClaimToken.tokenSignature token = false →
        (ClaimToken.create dec token).map (fun ct => ct.type) =
          .ok .selfIssued)) := by
  have hnew := fun tname => claimToken_new_ofString_ok dec tname token header payload hh hp
  constructor
  · intro hsi
    refine ⟨fun hc => ?_, fun hc hps => ?_, fun hc hps hat => ?_, fun hc hps hat => ?_⟩
    · simp [ClaimToken.create, hp, hsi, hc, hnew, Except.map]
    · simp [ClaimToken.create, hp, hsi, hc, hps, hnew, Except.map]
    · simp [ClaimToken.create, hp, hsi, hc, hps, hat, hnew, Except.map]
    · simp [ClaimToken.create, hp, hsi, hc, hps, hat]
  · intro hsi
    refine ⟨fun hvc => ?_, fun hvc hvp => ?_, fun hvc hvp hsig => ?_,
      fun hvc hvp hsig => ?_⟩
    · simp [ClaimToken.create, hp, hsi, hvc, hnew, Except.map]
    · simp [ClaimToken.create, hp, hsi, hvc, hvp, hnew, Except.map]
    · simp [ClaimToken.create, hp, hsi, hvc, hvp, hsig, hnew, Except.map]
    · simp [ClaimToken.create, hp, hsi, hvc, hvp, hsig, hnew, Except.map]

/-- C1 witness: the classification evaluated on a concrete SIOP-issuance
token. -/
theorem claimtoken_create_classification_witness :
    (ClaimToken.create decW1 "hW1.pW1.sg").map (fun ct => ct.type) =
      .ok .siopIssuance :=
  ((claimtoken_create_classification decW1 "hW1.pW1.sg" (.obj []) pW1
    rfl rfl).1 rfl).1 rfl

/-- C4: `getClaimTokensFromPresentationExchange` runs the descriptor-map
loop on `$.presentation_submission.descriptor_map.*`; a reached entry
must have a (truthy) `id` and `path`; the `path` string is resolved as a
JSON-path query against the full payload and must yield exactly one
string result: a missing path fails with a message ending
`No path property found.`, zero matches fail naming the descriptor id and
that the path did not return a token, several matches fail naming the id
and that the path points to multiple credentials, and a single string
match is classified and recorded under the entry's id. -/
theorem pe_extraction_requirements (dec : String → Option Json)
    (payload : Json) (acc : List (String × ClaimToken)) (item : Json)
    (rest : List Json) (hitem : jsTruthy (some item) = true) :
    (ClaimToken.getClaimTokensFromPresentationExchange dec payload =
      peLoop dec payload
        (jpQueryMany
          [.key "presentation_submission", .key "descriptor_map", .wildcard]
          [payload]) []) ∧
    (jsTruthy (item.get? "id") = false →
      peLoop dec payload (item :: rest) acc = .error peNoIdMsg) ∧
    (jsTruthy (item.get? "id") = true →
      jsTruthy (item.get? "path") = false →
      peLoop dec payload (item :: rest) acc =
        .error (peNoPathMsg (item.get? "id")) ∧
      ∃ pre, peNoPathMsg (item.get? "id") =
        pre ++ "No path property found.") ∧
    (∀ ps, jsTruthy (item.get? "id") = true →
      item.get? "path" = some (.str ps) → ps ≠ "" →
      jpQueryStr payload ps = some [] →
      peLoop dec payload (item :: rest) acc =
        .error (peZeroMsg (item.get? "id") (item.get? "path")) ∧
      ∃ pre mid, peZeroMsg (item.get? "id") (item.get? "path") =
        pre ++ jsDisplay (item.get? "id") ++ mid ++
          "did not return a token.") ∧
    (∀ ps t1 t2 ts, jsTruthy (item.get? "id") = true →
      item.get? "path" = some (.str ps) → ps ≠ "" →
      jpQueryStr payload ps = some (t1 :: t2 :: ts) →
      peLoop dec payload (item :: rest) acc =
        .error (peMultiMsg (item.get? "id") (item.get? "path")) ∧
      ∃ pre mid, peMultiMsg (item.get? "id") (item.get? "path") =
        pre ++ jsDisplay (item.get? "id") ++ mid ++
          "points to multiple credentails and should only point to one credential.") ∧
    (∀ ps tok ct, jsTruthy (item.get? "id") = true →
      item.get? "path" = some (.str ps) → ps ≠ "" →
      jpQueryStr payload ps = some [.str tok] →
      ClaimToken.create dec tok = .ok ct →
      peLoop dec payload (item :: rest) acc =
        peLoop dec payload rest (kvSet acc (jsDisplay (item.get? "id")) ct)) := by
  refine ⟨rfl, fun hid => ?_, fun hid hpath => ?_, fun ps hid hpath hps hq => ?_,
    fun ps t1 t2 ts hid hpath hps hq => ?_, fun ps tok ct hid hpath hps hq hcr => ?_⟩
  · simp [peLoop, hitem, hid]
  · refine ⟨by simp [peLoop, hitem, hid, hpath], ?_⟩
    refine ⟨"The SIOP presentation exchange response has descriptor_map with id \x27" ++
      jsDisplay (item.get? "id") ++ "\x27. ", ?_⟩
    rw [peNoPathMsg]
    simp only [String.append_assoc]
    rfl
  · have hpt : jsTruthy (some (Json.str ps)) = true := by
      simp [jsTruthy, bne_iff_ne, hps]
    refine ⟨by simp [peLoop, hitem, hid, hpath, hpt, hq], ?_⟩
    refine ⟨"The SIOP presentation exchange response has descriptor_map with id \x27",
      "\x27. This path \x27" ++ jsDisplay (item.get? "path") ++ "\x27 ", ?_⟩
    rw [peZeroMsg]
    simp only [String.append_assoc]
    rfl
  · have hpt : jsTruthy (some (Json.str ps)) = true := by
      simp [jsTruthy, bne_iff_ne, hps]
    refine ⟨by simp [peLoop, hitem, hid, hpath, hpt, hq], ?_⟩
    refine ⟨"The SIOP presentation exchange response has descriptor_map with id \x27",
      "\x27. This path \x27" ++ jsDisplay (item.get? "path") ++ "\x27 ", ?_⟩
    rw [peMultiMsg]
    simp only [String.append_assoc]
    rfl
  · have hpt : jsTruthy (some (Json.str ps)) = true := by
      simp [jsTruthy, bne_iff_ne, hps]
    simp [peLoop, hitem, hid, hpath, hpt, hq, hcr]

/-- C4 witness: the missing-path descriptor fails with the exact message,
which ends in `No path property found.`. -/
theorem pe_extraction_requirements_witness :
    ClaimToken.getClaimTokensFromPresentationExchange decNone pC4 =
      .error ("The SIOP presentation exchange response has descriptor_map with id \x27IdentityCard\x27. " ++
        "No path property found.") := by
  have h := pe_extraction_requirements decNone pC4 []
    (Json.obj [("id", Json.str "IdentityCard")]) [] rfl
  exact (h.1.trans ((h.2.2.1 rfl rfl).1)).trans rfl

/-- C5 counterexample: the drained queue holds one validated
`siopPresentationExchange` item whose response carries a DID, a contract
and a jti — yet the assembled result takes none of them (they default to
the empty string and the `siop` slot stays empty), because `isSiop` does
not recognise the presentation-exchange flavour. -/
theorem setValidationResult_pe_not_siop_cex :
    (Validator.setValidationResult [itemC5]).did = some (.str "") ∧
    (Validator.setValidationResult [itemC5]).contract = some (.str "") ∧
    (Validator.setValidationResult [itemC5]).siopJti = some (.str "") ∧
    (Validator.setValidationResult [itemC5]).siop = none ∧
    respC5.did = some "did:pe:user" ∧
    jsGet respC5.payloadObject "contract" = some (.str "ContractC5") ∧
    jsGet respC5.payloadObject "jti" = some (.str "JtiC5") :=
  ⟨rfl, rfl, rfl, rfl, rfl, rfl, rfl⟩

/-- C5 (amended): the assembled result takes `did`, `contract` and
`siopJti` from the first validated `siopIssuance` or
`siopPresentationAttestation` item; `siopPresentationExchange` does not
count as SIOP in `isSiop`, so a PE SIOP's response DID and payload are
ignored by the assembly (the DID then falls back to a verifiable
credential's `aud`, contract and jti default to the empty string). -/
theorem setValidationResult_amended (queue : List ValidationQueueItem)
    (s : ValidationQueueItem) (d : String) (cv jv : Json)
    (hs : (queue.filter (fun i => Validator.isSiop (itemType i))).get? 0 = some s)
    (hdid : respDid s = some d) (hd : d ≠ "")
    (hc : respPayloadGet s "contract" = some cv) (hcv : jsTruthy (some cv) = true)
    (hj : respPayloadGet s "jti" = some jv) (hjn : jv ≠ .null) :
    (Validator.setValidationResult queue).did = some (.str d) ∧
    (Validator.setValidationResult queue).contract = some cv ∧
    (Validator.setValidationResult queue).siopJti = some jv ∧
    Validator.isSiop (itemType s) = true ∧
    (∀ i, itemType i = some TokenType.siopPresentationExchange →
      Validator.isSiop (itemType i) = false) := by
  have hs' : (queue.filter (fun i => Validator.isSiop (itemType i)))[0]? = some s := by
    rw [← List.get?_eq_getElem?]
    exact hs
  have hd' : (d != "") = true := by simp [bne_iff_ne, hd]
  have hmatch : (match jv with | Json.null => Json.str "" | v => v) = jv := by
    cases jv
    case null => exact absurd rfl hjn
    all_goals rfl
  have hmem : s ∈ queue.filter (fun i => Validator.isSiop (itemType i)) :=
    List.get?_mem hs
  refine ⟨?_, ?_, ?_, (List.mem_filter.mp hmem).2, fun i h => by
    simp [Validator.isSiop, h]⟩
  · simp [Validator.setValidationResult, hs', hdid, optTruthy, hd', jsTruthy]
  · simp [Validator.setValidationResult, hs', hc, hcv]
  · simp [Validator.setValidationResult, hs', hj, hmatch]

/-- C5 witness: the amended assembly evaluated on a one-item queue. -/
theorem setValidationResult_amended_witness :
    (Validator.setValidationResult [itemW5]).did = some (.str "did:att:user") ∧
    (Validator.setValidationResult [itemW5]).contract = some (.str "CW5") ∧
    (Validator.setValidationResult [itemW5]).siopJti = some (.str "JW5") := by
  have h := setValidationResult_amended [itemW5] itemW5 "did:att:user"
    (.str "CW5") (.str "JW5") rfl rfl (by decide) rfl rfl rfl (by simp)
  exact ⟨h.1, h.2.1, h.2.2.1⟩

/-- The character-level splitter never yields an empty list. -/
theorem jsSplitAux_ne_nil (sep : Char) (cs acc : List Char) :
    jsSplitAux sep cs acc ≠ [] := by
  induction cs generalizing acc with
  | nil => simp [jsSplitAux]
  | cons c cs ih =>
    simp only [jsSplitAux]
    split
    · simp
    · exact ih _

/-- Splitting character data that ends in the separator yields a final
empty segment. -/
theorem jsSplitAux_last_sep (sep : Char) (cs acc : List Char) :
    (jsSplitAux sep (cs ++ [sep]) acc).getLast? = some "" := by
  induction cs generalizing acc with
  | nil =>
    simp [jsSplitAux]
  | cons c cs ih =>
    simp only [List.cons_append, jsSplitAux]
    split
    · have htl := ih ([] : List Char)
      cases htail : jsSplitAux sep (cs ++ [sep]) [] with
      | nil => exact absurd htail (jsSplitAux_ne_nil sep _ _)
      | cons x xs =>
        rw [List.getLast?_cons_cons]
        rw [htail] at htl
        exact htl
    · exact ih _

/-- C6 counterexample: `readContractId` picks the LAST path segment even
when it is empty, so a trailing slash changes the extracted contract id
(from the last non-empty segment to the empty string). -/
theorem readContractId_trailing_slash_cex :
    Validator.readContractId "https://portal.test/contracts/IdentityCard" =
      some "IdentityCard" ∧
    Validator.readContractId "https://portal.test/contracts/IdentityCard/" =
      some "" ∧
    Validator.readContractId "https://portal.test/contracts/IdentityCard/" ≠
      Validator.readContractId "https://portal.test/contracts/IdentityCard" := by
  refine ⟨rfl, rfl, ?_⟩
  decide

/-- C6 (amended): `readContractId` URL-parses the contract URL and
returns the URL-decoded LAST segment of the pathname — which is the
empty string whenever the pathname ends in a slash, so a trailing slash
does change the extracted id. -/
theorem readContractId_amended (u p : String) (hu : urlPathname u = some p) :
    (Validator.readContractId u =
      decodeURIComponent ((jsSplit '/' p).getLastD "")) ∧
    (∀ q, p = q ++ "/" → Validator.readContractId u = some "") := by
  constructor
  · simp [Validator.readContractId, hu]
  · intro q hq
    have hlast : (jsSplit '/' p).getLast? = some "" := by
      rw [hq, jsSplit]
      rw [show (q ++ "/").toList = q.toList ++ ['/'] from rfl]
      exact jsSplitAux_last_sep '/' q.toList []
    simp only [Validator.readContractId, hu]
    show decodeURIComponent ((jsSplit '/' p).getLastD "") = some ""
    rw [List.getLastD_eq_getLast?, hlast]
    rfl

/-- C6 witness: the amended statement evaluated on a concrete URL with a
trailing slash. -/
theorem readContractId_amended_witness :
    Validator.readContractId "https://w6.test/a/b/" = some "" :=
  (readContractId_amended "https://w6.test/a/b/" "/a/b/" rfl).2 "/a/b" rfl

/-- C7: when the dequeued item's classified token type has no registered
validator, the loop — and hence `Validator.validate` — immediately
returns `result=false`, `status=500` and the error
`<type> does not has a TokenValidator`, whatever the remaining registry
and validator functions do; no validator runs and no further item is
processed. -/
theorem validator_missing_validator (dec : String → Option Json)
    (registry : List (TokenType × TokenValidatorFn)) (fuel : Nat)
    (st : LoopState) (idx : Nat) (item : ValidationQueueItem) (ct : ClaimToken)
    (hn : findNextIdx st.queue = some idx)
    (hg : st.queue.get? idx = some item)
    (hc : Validator.getClaimToken dec item = .ok ct)
    (hr : registry.find? (fun kv => kv.1 == ct.type) = none) :
    validateLoop dec registry (fuel + 1) st =
      .inl (.ret { result := false, status := 500
                   detailedError := some (ct.type.name ++
                     " does not has a TokenValidator") }) ∧
    (∀ featureEnabled checkVpStatus token,
      st = { queue := [{ id := "siop", input := .raw token }] } →
      Validator.validate dec registry featureEnabled checkVpStatus (fuel + 1)
          token =
        .ret { result := false, status := 500
               detailedError := some (ct.type.name ++
                 " does not has a TokenValidator") }) := by
  have h1 : validateLoop dec registry (fuel + 1) st =
      .inl (.ret { result := false, status := 500
                   detailedError := some (ct.type.name ++
                     " does not has a TokenValidator") }) := by
    simp only [validateLoop, hn, hg, hc, hr]
  refine ⟨h1, fun featureEnabled checkVpStatus token hst => ?_⟩
  subst hst
  unfold Validator.validate
  simp only [h1]

/-- C7 witness: an empty registry and a raw verifiable-credential token
give exactly the error of the spec's scenario 7. -/
theorem validator_missing_validator_witness :
    Validator.validate decC7 [] true (fun _ => { result := true, status := 200 })
        1 "h7.p7" =
      .ret { result := false, status := 500
             detailedError :=
               some "verifiableCredential does not has a TokenValidator" } := by
  have h := validator_missing_validator decC7 [] 0
    { queue := [{ id := "siop", input := .raw "h7.p7" }] } 0
    { id := "siop", input := .raw "h7.p7" } ctC7 rfl rfl rfl rfl
  exact (h.2 true (fun _ => { result := true, status := 200 }) "h7.p7" rfl).trans rfl

end VcSdk
